import Mathlib

/-!
Verification of `src/streamlit_app.py` (résumé information extractor).

Strings are modelled as `List Char`.  Python `str.replace(old, new)` is
modelled by `pyReplace` (fuel-structural scan, fuel bounded by the length of
the scanned string, so concrete evaluation reduces in the kernel).  Python
`str.split(sep)` for a non-empty separator is modelled by `pySplit`; the two
are related by `interc` (join with a separator), mirroring the identity
`s.replace(old, new) = new.join(s.split(old))`.
-/

/-- Shorthand: the character list of a string literal. -/
def strL (s : String) : List Char := s.data

/-- Join a list of pieces with a separator, Python `sep.join(pieces)`. -/
def interc (sep : List Char) : List (List Char) → List Char
  | [] => []
  | [a] => a
  | a :: b :: l => a ++ sep ++ interc sep (b :: l)

/-- Fuel-driven scan behind `pyReplace`: at each position, if `pat` (assumed
non-empty) is a prefix of the remaining input, emit `repl` and skip the match,
otherwise keep the current character.  With fuel at least the length of the
input the fuel never runs out. -/
def replF (pat repl : List Char) : Nat → List Char → List Char
  | _, [] => []
  | 0, s => s
  | Nat.succ f, c :: rest =>
    if pat <+: (c :: rest) then
      repl ++ replF pat repl f (rest.drop (pat.length - 1))
    else
      c :: replF pat repl f rest

/-- Fuel-driven scan behind `pySplit`, same branching as `replF`. -/
def splitF (pat : List Char) : Nat → List Char → List (List Char)
  | _, [] => [[]]
  | 0, s => [s]
  | Nat.succ f, c :: rest =>
    if pat <+: (c :: rest) then
      [] :: splitF pat f (rest.drop (pat.length - 1))
    else
      match splitF pat f rest with
      | [] => [[c]]
      | p :: ps => (c :: p) :: ps

/-- Python `s.replace(pat, repl)`: replace every (leftmost, non-overlapping)
occurrence of `pat` in `s` by `repl`.  For the empty pattern CPython inserts
`repl` before every character and at the end; no call in the program uses an
empty pattern. -/
def pyReplace (s pat repl : List Char) : List Char :=
  if pat = [] then repl ++ s.flatMap (fun c => c :: repl)
  else replF pat repl s.length s

/-- Python `s.split(pat)` for non-empty `pat`. -/
def pySplit (pat s : List Char) : List (List Char) :=
  splitF pat s.length s

/-!
The placeholder tokens of `process_file` (`src/streamlit_app.py`, lines
87-90) and the prompt composition, a sequence of three `str.replace` calls.
-/

/-- The literal token replaced by the dumped schema (line 88). -/
def tokSchema : List Char := strL "\x7bjson.dumps(schema_json)\x7d"

/-- The literal token replaced by the current year (line 89). -/
def tokYear : List Char := strL "\x7bcurrent_year\x7d"

/-- The literal token replaced by the extracted PDF text (line 90). -/
def tokExtracted : List Char := strL "\x7bextracted_text\x7d"

/-- Lines 87-90 of `process_file`: starting from the user's template, three
sequential whole-string `str.replace` calls, in the order schema dump, then
current year, then extracted text.  Each later call scans the result of the
previous one, including any replacement text it inserted. -/
def compose (user_prompt_text schemaDump yearStr extracted_text : List Char) :
    List Char :=
  pyReplace
    (pyReplace (pyReplace user_prompt_text tokSchema schemaDump)
      tokYear yearStr)
    tokExtracted extracted_text

/-- Fuel-driven scan behind `composeIndependent`. -/
def composeIndF (schemaDump yearStr extracted : List Char) :
    Nat → List Char → List Char
  | _, [] => []
  | 0, s => s
  | Nat.succ f, c :: rest =>
    if tokSchema <+: (c :: rest) then
      schemaDump ++ composeIndF schemaDump yearStr extracted f
        (rest.drop (tokSchema.length - 1))
    else if tokYear <+: (c :: rest) then
      yearStr ++ composeIndF schemaDump yearStr extracted f
        (rest.drop (tokYear.length - 1))
    else if tokExtracted <+: (c :: rest) then
      extracted ++ composeIndF schemaDump yearStr extracted f
        (rest.drop (tokExtracted.length - 1))
    else
      c :: composeIndF schemaDump yearStr extracted f rest

/-- Written from the spec's words, for comparison with `compose`: a single
simultaneous scan of the template in which every placeholder occurrence is
replaced by its bound value and no replacement value is ever re-scanned for a
later placeholder's token ("independent whole-string scans"). -/
def composeIndependent (t schemaDump yearStr extracted : List Char) :
    List Char :=
  composeIndF schemaDump yearStr extracted t.length t

/-!
Model of the program state and effects.  The interpreter-level effects of the
script (Streamlit display calls, the session dictionary, the single HTTP
request) are made explicit: every `st.*` display call becomes an `Out` event,
the session dictionary becomes `Session`, and the outcomes of the external
actions (file system, `json` module, `pdfplumber`, `requests`) are supplied by
an `Env`.  An uncaught Python exception is reported in the `crash` field of
the result instead of a message.
-/

/-- One Streamlit display call. -/
inductive Out (J : Type) where
  | error (msg : List Char)
  | warning (msg : List Char)
  | info (msg : List Char)
  | textArea (msg : List Char)
  | subheader (msg : List Char)
  | jsonView (v : J)
  | write (msg : List Char)
  | codeBlock (msg : List Char)
deriving DecidableEq

/-- The text carried by a display call (the structured `jsonView` carries a
JSON value, not text). -/
def Out.msgText {J : Type} : Out J → List Char
  | .error m => m
  | .warning m => m
  | .info m => m
  | .textArea m => m
  | .subheader m => m
  | .jsonView _ => []
  | .write m => m
  | .codeBlock m => m

/-- A Python exception escaping `process_file`. -/
inductive PyExc where
  | attributeErrorNoneStrip
deriving DecidableEq

/-- The `requests.post` response: HTTP status, `response.text`, and the value
of `response.json()["choices"][0]["message"]["content"]` (`none` when that
expression raises, e.g. a non-JSON body or missing keys). -/
structure HttpResp where
  status : Nat
  body : List Char
  content : Option (List Char)
deriving DecidableEq

/-- An uploaded file: its `.name` and the bytes of `.getvalue()`. -/
structure UploadedFile where
  name : List Char
  data : List Nat
deriving DecidableEq

/-- The session-state fields written by `process_file` (lines 131 and 134,
initialised in `main`, lines 383-387). -/
structure Session (J : Type) where
  extracted_info : Option J
  show_question_input : Bool
deriving DecidableEq

/-- Outcomes of the external actions, and the texts of the exceptions they
raise.  `J` is the type of parsed JSON values; `jsonParse` models both
`json.load`/`json.loads` (`none` = the parse raises) and `jsonDumps` models
`json.dumps`.  `pdfOpen` models `pdfplumber.open` on the uploaded bytes:
`none` when it raises, otherwise the per-page results of
`page.extract_text()` (`none` for a page = that call returned `None`).
`http` models the single `requests.post` (`none` = transport exception). -/
structure Env (J : Type) where
  schemaFile : Option (List Char)
  schemaExcText : List Char
  jsonParse : List Char → Option J
  jsonDumps : J → List Char
  pdfOpen : List Nat → Option (List (Option (List Char)))
  pdfExcText : List Char
  concatExcText : List Char
  currentYear : Nat
  http : Option HttpResp
  httpExcText : List Char
  contentExcText : List Char

/-- Python whitespace characters (the ASCII ones `str.strip` removes). -/
def isPyWs (c : Char) : Bool :=
  c = ' ' || c = '\t' || c = '\n' || c = '\r' || c = '\x0b' || c = '\x0c'

/-- Python `s.strip()`. -/
def pyStrip (t : List Char) : List Char :=
  ((t.dropWhile isPyWs).reverse.dropWhile isPyWs).reverse

/-- Decimal rendering of a number, Python `str(n)` / f-string interpolation
for a non-negative integer. -/
def natStr (n : Nat) : List Char := (Nat.repr n).data

/-- `read_schema` (lines 15-22): open and `json.load` the schema file inside
one `try`; any failure is shown with `st.error` and turned into `None`. -/
def read_schema {J : Type} (env : Env J) : Option J × List (Out J) :=
  match env.schemaFile with
  | none =>
    (none, [.error (strL "Error reading schema file: " ++ env.schemaExcText)])
  | some content =>
    match env.jsonParse content with
    | none =>
      (none, [.error (strL "Error reading schema file: " ++ env.schemaExcText)])
    | some v => (some v, [])

/-- The page loop of lines 30-31: `text += page.extract_text()` left to
right; a page returning `None` raises a `TypeError` at that point, so the
whole accumulated text is lost. -/
def concatPages (acc : List Char) : List (Option (List Char)) → Option (List Char)
  | [] => some acc
  | none :: _ => none
  | some s :: ps => concatPages (acc ++ s) ps

/-- `extract_text_from_pdf_plumber` (lines 25-35): open the bytes with
pdfplumber and concatenate the page texts; any exception (unreadable PDF, or
the `TypeError` from concatenating `None`) is shown with `st.error` and
turned into `None`. -/
def extract_text_from_pdf_plumber {J : Type} (env : Env J)
    (pdf_data : List Nat) : Option (List Char) × List (Out J) :=
  match env.pdfOpen pdf_data with
  | none =>
    (none, [.error (strL "Error extracting text from PDF: " ++ env.pdfExcText)])
  | some pages =>
    match concatPages [] pages with
    | none =>
      (none,
       [.error (strL "Error extracting text from PDF: " ++ env.concatExcText)])
    | some text => (some text, [])

/-- Result of the completion-interpretation step (lines 125-139). -/
structure InterpRes (J : Type) where
  outs : List (Out J)
  session : Session J
  parsed : Option J
deriving DecidableEq

/-- Lines 125-139 of `process_file`: `json.loads` the completion; on success
display the parsed JSON and store it (plus the unlock flag) in the session; on
`JSONDecodeError` display a diagnostic and the raw text unchanged. -/
def interpretStep {J : Type} (parse : List Char → Option J)
    (sess : Session J) (generated_text : List Char) : InterpRes J :=
  match parse generated_text with
  | some v =>
    { outs := [.jsonView v],
      session := { sess with extracted_info := some v,
                             show_question_input := true },
      parsed := some v }
  | none =>
    { outs := [.error (strL "The returned content is not in valid JSON format."),
               .write (strL "Raw response:"),
               .codeBlock generated_text],
      session := sess,
      parsed := none }

/-- Everything observable about one `process_file` call: the display calls in
order, how many HTTP requests were attempted, whether `json.loads` was run on
a completion, the final user prompt sent (if a request was made), the session
state afterwards, and an escaping exception if any. -/
structure ProcResult (J : Type) where
  outs : List (Out J)
  httpAttempts : Nat
  completionParseAttempted : Bool
  sentPrompt : Option (List Char)
  session : Session J
  crash : Option PyExc
deriving DecidableEq

/-- `process_file` (lines 38-145), translated branch by branch.  Note line
61: when `extract_text_from_pdf_plumber` returns `None`, the source evaluates
`None.strip()`, an `AttributeError` that is not caught anywhere in
`process_file`. -/
def process_file {J : Type} (env : Env J) (sess : Session J)
    (uploaded_file : Option UploadedFile) (user_prompt_text : List Char) :
    ProcResult J :=
  match read_schema env with
  | (none, outs0) =>
    { outs := outs0 ++ [.error (strL "Error: Schema could not be loaded.")],
      httpAttempts := 0, completionParseAttempted := false,
      sentPrompt := none, session := sess, crash := none }
  | (some schema_json, outs0) =>
    match uploaded_file with
    | none =>
      { outs := outs0 ++
          [.error (strL "Error: File path is missing or file does not exist.")],
        httpAttempts := 0, completionParseAttempted := false,
        sentPrompt := none, session := sess, crash := none }
    | some f =>
      if strL ".pdf" <:+ f.name then
        match extract_text_from_pdf_plumber env f.data with
        | (none, outs1) =>
          { outs := outs0 ++ outs1,
            httpAttempts := 0, completionParseAttempted := false,
            sentPrompt := none, session := sess,
            crash := some .attributeErrorNoneStrip }
        | (some extracted_text, outs1) =>
          if pyStrip extracted_text = [] then
            { outs := outs0 ++ outs1 ++
                [.warning (strL "No text extracted from PDF using pdfplumber.")],
              httpAttempts := 0, completionParseAttempted := false,
              sentPrompt := none, session := sess, crash := none }
          else if pyStrip extracted_text = [] then
            { outs := outs0 ++ outs1 ++
                [.error (strL "Error: No text extracted from the file.")],
              httpAttempts := 0, completionParseAttempted := false,
              sentPrompt := none, session := sess, crash := none }
          else
            let final_user_prompt :=
              compose user_prompt_text (env.jsonDumps schema_json)
                (natStr env.currentYear) extracted_text
            let outs2 := outs0 ++ outs1 ++
              [.textArea final_user_prompt,
               .info (strL "Sending request to OpenAI API for CV extraction...")]
            match env.http with
            | none =>
              { outs := outs2 ++
                  [.error (strL "Error during API request: " ++ env.httpExcText)],
                httpAttempts := 1, completionParseAttempted := false,
                sentPrompt := some final_user_prompt, session := sess,
                crash := none }
            | some resp =>
              if resp.status = 200 then
                match resp.content with
                | none =>
                  { outs := outs2 ++
                      [.error (strL "Error during API request: " ++
                        env.contentExcText)],
                    httpAttempts := 1, completionParseAttempted := false,
                    sentPrompt := some final_user_prompt, session := sess,
                    crash := none }
                | some generated_text =>
                  let ir := interpretStep env.jsonParse sess generated_text
                  { outs := outs2 ++
                      [.subheader (strL "Extracted Resume Information")] ++
                      ir.outs,
                    httpAttempts := 1, completionParseAttempted := true,
                    sentPrompt := some final_user_prompt,
                    session := ir.session, crash := none }
              else
                { outs := outs2 ++
                    [.error (strL "Request failed with status code " ++
                       natStr resp.status),
                     .write resp.body],
                  httpAttempts := 1, completionParseAttempted := false,
                  sentPrompt := some final_user_prompt, session := sess,
                  crash := none }
      else
        { outs := outs0 ++
            [.error (strL "Error: Unsupported file type. Only .pdf files are supported.")],
          httpAttempts := 0, completionParseAttempted := false,
          sentPrompt := none, session := sess, crash := none }

/-- All text surfaced to the user by one `process_file` call, in display
order. -/
def surfacedText {J : Type} (r : ProcResult J) : List Char :=
  (r.outs.map Out.msgText).flatten

/-!
Concrete instantiations used by witnesses and counterexamples.  The JSON
value type is instantiated with `Unit`; `jsonParse` fails exactly on the
string `not json`, so both a succeeding schema load and a failing completion
parse can be exercised.
-/

/-- A fully healthy environment: readable schema, one PDF page of text, a 200
response whose completion parses. -/
def envBase : Env Unit where
  schemaFile := some (strL "schema")
  schemaExcText := strL "exc"
  jsonParse := fun s => if s = strL "not json" then none else some ()
  jsonDumps := fun _ => strL "DUMP"
  pdfOpen := fun _ => some [some (strL "Jane Doe")]
  pdfExcText := strL "exc"
  concatExcText := strL "exc"
  currentYear := 2026
  http := some ⟨200, strL "ok", some (strL "ok")⟩
  httpExcText := strL "exc"
  contentExcText := strL "exc"

/-- A fresh session (the `main` defaults of lines 383-387). -/
def sess0 : Session Unit := ⟨none, false⟩

/-- An uploaded file passing the `.pdf` suffix check. -/
def fileOk : UploadedFile := ⟨strL "cv.pdf", [1]⟩

/-- Environment whose PDF bytes `pdfplumber.open` cannot read. -/
def envC2 : Env Unit := { envBase with pdfOpen := fun _ => none }

/-- Environment whose schema file is missing. -/
def envC3 : Env Unit := { envBase with schemaFile := none }

/-- Environment answering the request with status 500, body `server error`. -/
def envC4 : Env Unit :=
  { envBase with http := some ⟨500, strL "server error", some (strL "x")⟩ }

/-- Environment whose PDF pages hold only whitespace text. -/
def envC5 : Env Unit :=
  { envBase with pdfOpen := fun _ => some [some (strL " "), some []] }

/-- Environment answering 200 with the non-JSON completion `not json`. -/
def envC6 : Env Unit :=
  { envBase with http := some ⟨200, strL "b", some (strL "not json")⟩ }

/-- Environment whose second PDF page yields `None` from
`page.extract_text()`. -/
def envC9 : Env Unit :=
  { envBase with pdfOpen := fun _ => some [some (strL "page one"), none] }

/-- Counterexample template for C1: exactly the schema placeholder. -/
def cexTemplate : List Char := tokSchema

/-- Counterexample schema dump for C1: `json.dumps` of the JSON string value
`\x7bcurrent_year\x7d`, i.e. the year token surrounded by quotes — a
replacement value that itself contains a later placeholder's token. -/
def cexSchemaDump : List Char := strL "\x22\x7bcurrent_year\x7d\x22"
theorem interc_cons_head (sep : List Char) (c : Char) (p : List Char)
    (ps : List (List Char)) :
    interc sep ((c :: p) :: ps) = c :: interc sep (p :: ps) := by
  cases ps <;> simp [interc]

theorem splitF_ne_nil (pat : List Char) :
    ∀ f s, splitF pat f s ≠ [] := by
  intro f s
  induction f generalizing s with
  | zero => cases s <;> simp [splitF]
  | succ f ih =>
    cases s with
    | nil => simp [splitF]
    | cons c rest =>
      simp only [splitF]
      split
      · simp
      · split <;> simp_all

theorem splitF_head_pref (pat : List Char) :
    ∀ f s p ps, splitF pat f s = p :: ps → p <+: s := by
  intro f
  induction f with
  | zero =>
    intro s p ps h
    cases s with
    | nil => simp [splitF] at h; simp [h.1]
    | cons c rest => simp [splitF] at h; simp [h.1]
  | succ f ih =>
    intro s p ps h
    cases s with
    | nil => simp [splitF] at h; simp [h.1]
    | cons c rest =>
      by_cases hpre : pat <+: (c :: rest)
      · simp only [splitF, if_pos hpre, List.cons.injEq] at h
        rw [← h.1]
        exact List.nil_prefix
      · rcases hs : splitF pat f rest with _ | ⟨q, qs⟩
        · exact absurd hs (splitF_ne_nil pat f rest)
        · simp only [splitF, if_neg hpre, hs, List.cons.injEq] at h
          rw [← h.1]
          exact List.cons_prefix_cons.mpr ⟨rfl, ih rest q qs hs⟩

theorem replF_eq_interc_splitF (pat repl : List Char) :
    ∀ f s, replF pat repl f s = interc repl (splitF pat f s) := by
  intro f
  induction f with
  | zero => intro s; cases s <;> simp [replF, splitF, interc]
  | succ f ih =>
    intro s
    cases s with
    | nil => simp [replF, splitF, interc]
    | cons c rest =>
      simp only [replF, splitF]
      split
      · rcases hs : splitF pat f (rest.drop (pat.length - 1)) with _ | ⟨q, qs⟩
        · exact absurd hs (splitF_ne_nil pat f _)
        · rw [ih, hs]
          cases qs <;> simp [interc]
      · rcases hs : splitF pat f rest with _ | ⟨q, qs⟩
        · exact absurd hs (splitF_ne_nil pat f rest)
        · rw [ih, hs, interc_cons_head]

theorem interc_splitF (pat : List Char) (hp : pat ≠ []) :
    ∀ f s, s.length ≤ f → interc pat (splitF pat f s) = s := by
  intro f
  induction f with
  | zero =>
    intro s hs
    have : s = [] := List.length_eq_zero.mp (Nat.le_zero.mp hs)
    subst this
    simp [splitF, interc]
  | succ f ih =>
    intro s hs
    cases s with
    | nil => simp [splitF, interc]
    | cons c rest =>
      simp only [splitF]
      split
      · case _ hpre =>
        rcases hq : splitF pat f (rest.drop (pat.length - 1)) with _ | ⟨q, qs⟩
        · exact absurd hq (splitF_ne_nil pat f _)
        · rw [← hq]
          have hlen : (rest.drop (pat.length - 1)).length ≤ f := by
            have := List.length_drop (pat.length - 1) rest
            simp only [List.length_cons] at hs
            omega
          have hrec := ih (rest.drop (pat.length - 1)) hlen
          rw [hq] at hrec ⊢
          have hcons : interc pat ([] :: q :: qs) = pat ++ interc pat (q :: qs) := by
            simp [interc]
          rw [hcons, hrec]
          rcases hpre with ⟨t, ht⟩
          have hdrop : rest.drop (pat.length - 1) = t := by
            have hlp : pat.length ≥ 1 := by
              cases pat with
              | nil => exact absurd rfl hp
              | cons _ _ => simp
            have : (c :: rest).drop pat.length = t := by
              rw [← ht]
              simp
            rw [← this]
            cases pat with
            | nil => exact absurd rfl hp
            | cons d ds => simp [List.drop]
          rw [hdrop, ht]
      · rcases hq : splitF pat f rest with _ | ⟨q, qs⟩
        · exact absurd hq (splitF_ne_nil pat f rest)
        · have hlen : rest.length ≤ f := by
            simp only [List.length_cons] at hs
            omega
          have hrec := ih rest hlen
          rw [hq] at hrec
          rw [interc_cons_head, hrec]

theorem splitF_parts_no_token (pat : List Char) (hp : pat ≠ []) :
    ∀ f s, s.length ≤ f → ∀ p ∈ splitF pat f s, ¬ pat <:+: p := by
  intro f
  induction f with
  | zero =>
    intro s hs p hmem
    have : s = [] := List.length_eq_zero.mp (Nat.le_zero.mp hs)
    subst this
    simp [splitF] at hmem
    subst hmem
    intro hinf
    exact hp (List.infix_nil.mp hinf)
  | succ f ih =>
    intro s hs p hmem
    cases s with
    | nil =>
      simp [splitF] at hmem
      subst hmem
      intro hinf
      exact hp (List.infix_nil.mp hinf)
    | cons c rest =>
      by_cases hpre : pat <+: (c :: rest)
      · simp only [splitF, if_pos hpre, List.mem_cons] at hmem
        rcases hmem with rfl | hmem
        · intro hinf
          exact hp (List.infix_nil.mp hinf)
        · have hlen : (rest.drop (pat.length - 1)).length ≤ f := by
            have := List.length_drop (pat.length - 1) rest
            simp only [List.length_cons] at hs
            omega
          exact ih _ hlen p hmem
      · rcases hq : splitF pat f rest with _ | ⟨q, qs⟩
        · exact absurd hq (splitF_ne_nil pat f rest)
        · simp only [splitF, if_neg hpre, hq, List.mem_cons] at hmem
          have hlen : rest.length ≤ f := by
            simp only [List.length_cons] at hs
            omega
          rcases hmem with rfl | hmem
          · intro hinf
            rcases List.infix_cons_iff.mp hinf with hpf | hinf2
            · have hqrest : q <+: rest := splitF_head_pref pat f rest q qs hq
              have hcq : (c :: q) <+: (c :: rest) :=
                List.cons_prefix_cons.mpr ⟨rfl, hqrest⟩
              exact hpre (hpf.trans hcq)
            · exact ih rest hlen q (by rw [hq]; simp) hinf2
          · exact ih rest hlen p (by rw [hq]; simp [hmem])

theorem pyReplace_eq_interc (s pat repl : List Char) (hp : pat ≠ []) :
    pyReplace s pat repl = interc repl (pySplit pat s) := by
  simp [pyReplace, pySplit, hp, replF_eq_interc_splitF]

theorem interc_pySplit (s pat : List Char) (hp : pat ≠ []) :
    interc pat (pySplit pat s) = s :=
  interc_splitF pat hp s.length s (Nat.le_refl _)

theorem pySplit_parts_no_token (s pat : List Char) (hp : pat ≠ []) :
    ∀ p ∈ pySplit pat s, ¬ pat <:+: p :=
  splitF_parts_no_token pat hp s.length s (Nat.le_refl _)


theorem infix_of_mem_flatten {y x : List Char} {L : List (List Char)}
    (hx : x ∈ L) (hy : y <:+: x) : y <:+: L.flatten := by
  obtain ⟨s, t, rfl⟩ := List.append_of_mem hx
  obtain ⟨a, b, rfl⟩ := hy
  exact ⟨s.flatten ++ a, b ++ t.flatten, by simp [List.flatten_append]⟩

theorem ne_of_no_pref {a b x : List Char} (h : ¬ a <+: b) : a ++ x ≠ b :=
  fun he => h (he ▸ List.prefix_append a x)

theorem concatPages_none :
    ∀ (pages : List (Option (List Char))) (acc : List Char),
      none ∈ pages → concatPages acc pages = none := by
  intro pages
  induction pages with
  | nil => intro acc h; simp at h
  | cons p ps ih =>
    intro acc h
    cases p with
    | none => simp [concatPages]
    | some s =>
      rcases List.mem_cons.mp h with h1 | h2
      · simp at h1
      · simp [concatPages, ih _ h2]

theorem concatPages_ws :
    ∀ (pages : List (Option (List Char))) (acc : List Char),
      acc.all isPyWs = true →
      (∀ p ∈ pages, ∃ s, p = some s ∧ s.all isPyWs = true) →
      ∃ t, concatPages acc pages = some t ∧ t.all isPyWs = true := by
  intro pages
  induction pages with
  | nil => intro acc ha _; exact ⟨acc, rfl, ha⟩
  | cons p ps ih =>
    intro acc ha hall
    obtain ⟨s, rfl, hs⟩ := hall p (List.mem_cons_self p ps)
    simpa [concatPages] using
      ih (acc ++ s) (by simp [List.all_append, ha, hs])
        (fun q hq => hall q (List.mem_cons_of_mem _ hq))

theorem pyStrip_eq_nil (t : List Char) (h : t.all isPyWs = true) :
    pyStrip t = [] := by
  have h1 : t.dropWhile isPyWs = [] :=
    List.dropWhile_eq_nil_iff.mpr (by simpa [List.all_eq_true] using h)
  simp [pyStrip, h1]

theorem process_file_non200_eq {J : Type} (env : Env J) (sess : Session J)
    (f : UploadedFile) (t c txt : List Char) (v : J)
    (pages : List (Option (List Char))) (resp : HttpResp)
    (hs : env.schemaFile = some c) (hv : env.jsonParse c = some v)
    (hn : strL ".pdf" <:+ f.name)
    (hpdf : env.pdfOpen f.data = some pages)
    (hcat : concatPages [] pages = some txt)
    (htxt : ¬ pyStrip txt = [])
    (hh : env.http = some resp) (hst : ¬ resp.status = 200) :
    process_file env sess (some f) t =
      { outs := [.textArea (compose t (env.jsonDumps v) (natStr env.currentYear) txt),
                 .info (strL "Sending request to OpenAI API for CV extraction..."),
                 .error (strL "Request failed with status code " ++ natStr resp.status),
                 .write resp.body],
        httpAttempts := 1, completionParseAttempted := false,
        sentPrompt := some (compose t (env.jsonDumps v) (natStr env.currentYear) txt),
        session := sess, crash := none } := by
  simp [process_file, read_schema, extract_text_from_pdf_plumber,
    hs, hv, hn, hpdf, hcat, htxt, hh, hst]

theorem process_file_200_eq {J : Type} (env : Env J) (sess : Session J)
    (f : UploadedFile) (t c txt g : List Char) (v : J)
    (pages : List (Option (List Char))) (resp : HttpResp)
    (hs : env.schemaFile = some c) (hv : env.jsonParse c = some v)
    (hn : strL ".pdf" <:+ f.name)
    (hpdf : env.pdfOpen f.data = some pages)
    (hcat : concatPages [] pages = some txt)
    (htxt : ¬ pyStrip txt = [])
    (hh : env.http = some resp) (hst : resp.status = 200)
    (hct : resp.content = some g) :
    process_file env sess (some f) t =
      { outs := [.textArea (compose t (env.jsonDumps v) (natStr env.currentYear) txt),
                 .info (strL "Sending request to OpenAI API for CV extraction..."),
                 .subheader (strL "Extracted Resume Information")] ++
                (interpretStep env.jsonParse sess g).outs,
        httpAttempts := 1, completionParseAttempted := true,
        sentPrompt := some (compose t (env.jsonDumps v) (natStr env.currentYear) txt),
        session := (interpretStep env.jsonParse sess g).session,
        crash := none } := by
  simp [process_file, read_schema, extract_text_from_pdf_plumber,
    hs, hv, hn, hpdf, hcat, htxt, hh, hst, hct]

/-- Claim C1, as amended: the prompt composition of `process_file` performs
the three placeholder substitutions as sequential whole-string scans in the
fixed order schema dump, current year, extracted text.  Each scan replaces
every occurrence of its token (the stage input splits into token-free parts
joined by the token, and the stage output is exactly those parts joined by
the bound value, so all non-placeholder text is byte-for-byte unchanged);
because the scans are sequential, text inserted by an earlier scan is
re-scanned by the later ones. -/
theorem compose_sequential_scans (t sd ys e : List Char) :
    ∃ p₁ p₂ p₃ : List (List Char),
      t = interc tokSchema p₁ ∧
      (∀ x ∈ p₁, ¬ tokSchema <:+: x) ∧
      pyReplace t tokSchema sd = interc sd p₁ ∧
      pyReplace t tokSchema sd = interc tokYear p₂ ∧
      (∀ x ∈ p₂, ¬ tokYear <:+: x) ∧
      pyReplace (pyReplace t tokSchema sd) tokYear ys = interc ys p₂ ∧
      pyReplace (pyReplace t tokSchema sd) tokYear ys = interc tokExtracted p₃ ∧
      (∀ x ∈ p₃, ¬ tokExtracted <:+: x) ∧
      compose t sd ys e = interc e p₃ := by
  refine ⟨pySplit tokSchema t,
          pySplit tokYear (pyReplace t tokSchema sd),
          pySplit tokExtracted (pyReplace (pyReplace t tokSchema sd) tokYear ys),
          ?_, ?_, ?_, ?_, ?_, ?_, ?_, ?_, ?_⟩
  · exact (interc_pySplit t tokSchema (by decide)).symm
  · exact pySplit_parts_no_token t tokSchema (by decide)
  · exact pyReplace_eq_interc t tokSchema sd (by decide)
  · exact (interc_pySplit _ tokYear (by decide)).symm
  · exact pySplit_parts_no_token _ tokYear (by decide)
  · exact pyReplace_eq_interc _ tokYear ys (by decide)
  · exact (interc_pySplit _ tokExtracted (by decide)).symm
  · exact pySplit_parts_no_token _ tokExtracted (by decide)
  · exact pyReplace_eq_interc _ tokExtracted e (by decide)

/-- Claim C1, counterexample: the substitutions are not independent
whole-string scans.  With the template equal to the schema token and a schema
dump that contains the year token (the dump of the JSON string value
`\x7bcurrent_year\x7d`), the composition of `process_file` re-scans the
inserted dump and substitutes the year into it, whereas the independent
(simultaneous) substitution described by the spec leaves the inserted dump
untouched. -/
theorem compose_rescans_schema_dump :
    compose cexTemplate cexSchemaDump (strL "2026") (strL "T") =
      strL "\x222026\x22" ∧
    composeIndependent cexTemplate cexSchemaDump (strL "2026") (strL "T") =
      cexSchemaDump ∧
    compose cexTemplate cexSchemaDump (strL "2026") (strL "T") ≠
      composeIndependent cexTemplate cexSchemaDump (strL "2026") (strL "T") := by
  decide

/-- Claim C2: at the failing input (a readable schema plus an uploaded file
named `cv.pdf` whose bytes pdfplumber cannot open), the inner handler of
`extract_text_from_pdf_plumber` converts the extraction error into `None`,
and `process_file` then evaluates `None.strip()` at line 61 — an
`AttributeError` that escapes `process_file` instead of becoming a
user-visible message. -/
theorem process_file_crash_on_unreadable_pdf :
    (extract_text_from_pdf_plumber envC2 fileOk.data).1 = none ∧
    (process_file envC2 sess0 (some fileOk) (strL "p")).crash =
      some PyExc.attributeErrorNoneStrip :=
  ⟨rfl, rfl⟩

/-- Claim C3: whenever the schema file is missing or its content does not
parse as JSON, `read_schema` returns the error case (`None`), and
`process_file` emits the two error messages and stops: no HTTP request is
attempted, no completion is parsed, no prompt is sent, and the session is
untouched. -/
theorem schema_load_failure_aborts {J : Type} (env : Env J) (sess : Session J)
    (up : Option UploadedFile) (t : List Char)
    (h : env.schemaFile = none ∨
         ∃ c, env.schemaFile = some c ∧ env.jsonParse c = none) :
    (read_schema env).1 = none ∧
    (process_file env sess up t).httpAttempts = 0 ∧
    (process_file env sess up t).completionParseAttempted = false ∧
    (process_file env sess up t).sentPrompt = none ∧
    (process_file env sess up t).outs =
      [.error (strL "Error reading schema file: " ++ env.schemaExcText),
       .error (strL "Error: Schema could not be loaded.")] ∧
    (process_file env sess up t).session = sess := by
  rcases h with h | ⟨c, hc, hp⟩
  · simp [process_file, read_schema, h]
  · simp [process_file, read_schema, hc, hp]

/-- Witness for C3 at a concrete input: the schema file of `envC3` is
missing, `read_schema` returns `None` and no HTTP request happens. -/
theorem schema_load_failure_aborts_witness :
    envC3.schemaFile = none ∧
    (read_schema envC3).1 = none ∧
    (process_file envC3 sess0 none []).httpAttempts = 0 :=
  ⟨rfl,
   (schema_load_failure_aborts envC3 sess0 none [] (Or.inl rfl)).1,
   (schema_load_failure_aborts envC3 sess0 none [] (Or.inl rfl)).2.1⟩

/-- Claim C4: when the flow reaches the HTTP call and the response status is
not 200, `json.loads` is never run on a completion, and the surfaced output
of the call contains both the decimal status code (inside the `st.error`
message) and the verbatim response body (the `st.write` that follows);
the session is untouched. -/
theorem non200_skips_interpreter {J : Type} (env : Env J) (sess : Session J)
    (f : UploadedFile) (t c txt : List Char) (v : J)
    (pages : List (Option (List Char))) (resp : HttpResp)
    (hs : env.schemaFile = some c) (hv : env.jsonParse c = some v)
    (hn : strL ".pdf" <:+ f.name)
    (hpdf : env.pdfOpen f.data = some pages)
    (hcat : concatPages [] pages = some txt)
    (htxt : ¬ pyStrip txt = [])
    (hh : env.http = some resp) (hst : ¬ resp.status = 200) :
    (process_file env sess (some f) t).completionParseAttempted = false ∧
    natStr resp.status <:+: surfacedText (process_file env sess (some f) t) ∧
    resp.body <:+: surfacedText (process_file env sess (some f) t) ∧
    (process_file env sess (some f) t).session = sess := by
  have he := process_file_non200_eq env sess f t c txt v pages resp
    hs hv hn hpdf hcat htxt hh hst
  refine ⟨by rw [he], ?_, ?_, by rw [he]⟩
  · rw [he]
    simp only [surfacedText]
    exact infix_of_mem_flatten
      (x := strL "Request failed with status code " ++ natStr resp.status)
      (by simp [Out.msgText])
      ((List.suffix_append _ _).isInfix)
  · rw [he]
    simp only [surfacedText]
    exact infix_of_mem_flatten (x := resp.body)
      (by simp [Out.msgText]) (List.infix_refl _)

/-- Witness for C4 at a concrete input: a 500 response with body
`server error` surfaces both `500` and `server error` and the completion is
never parsed. -/
theorem non200_skips_interpreter_witness :
    envC4.http = some ⟨500, strL "server error", some (strL "x")⟩ ∧
    (process_file envC4 sess0 (some fileOk) (strL "go")).completionParseAttempted
      = false ∧
    natStr 500 <:+: surfacedText (process_file envC4 sess0 (some fileOk) (strL "go")) ∧
    strL "server error" <:+:
      surfacedText (process_file envC4 sess0 (some fileOk) (strL "go")) := by
  refine ⟨rfl, ?_⟩
  have h := non200_skips_interpreter envC4 sess0 fileOk (strL "go")
    (strL "schema") (strL "Jane Doe") () [some (strL "Jane Doe")]
    ⟨500, strL "server error", some (strL "x")⟩
    rfl (by decide) (by decide) rfl rfl (by decide) rfl (by decide)
  exact ⟨h.1, h.2.1, h.2.2.1⟩

/-- Claim C5: when every PDF page yields a (possibly empty) whitespace-only
string, the extraction returns the whitespace-only concatenation, and
`process_file` emits the no-text warning and halts: no HTTP request is
attempted, no prompt is sent, and the session is untouched. -/
theorem whitespace_pages_halt {J : Type} (env : Env J) (sess : Session J)
    (f : UploadedFile) (t c : List Char) (v : J)
    (pages : List (Option (List Char)))
    (hs : env.schemaFile = some c) (hv : env.jsonParse c = some v)
    (hn : strL ".pdf" <:+ f.name)
    (hpdf : env.pdfOpen f.data = some pages)
    (hws : ∀ p ∈ pages, ∃ s, p = some s ∧ s.all isPyWs = true) :
    ∃ txt, (extract_text_from_pdf_plumber env f.data).1 = some txt ∧
      txt.all isPyWs = true ∧ pyStrip txt = [] ∧
      (process_file env sess (some f) t).httpAttempts = 0 ∧
      (process_file env sess (some f) t).sentPrompt = none ∧
      Out.warning (strL "No text extracted from PDF using pdfplumber.") ∈
        (process_file env sess (some f) t).outs ∧
      (process_file env sess (some f) t).session = sess := by
  obtain ⟨txt, hcat, hws2⟩ := concatPages_ws pages [] rfl hws
  have hstrip := pyStrip_eq_nil txt hws2
  refine ⟨txt, ?_, hws2, hstrip, ?_, ?_, ?_, ?_⟩
  · simp [extract_text_from_pdf_plumber, hpdf, hcat]
  · simp [process_file, read_schema, extract_text_from_pdf_plumber,
      hs, hv, hn, hpdf, hcat, hstrip]
  · simp [process_file, read_schema, extract_text_from_pdf_plumber,
      hs, hv, hn, hpdf, hcat, hstrip]
  · simp [process_file, read_schema, extract_text_from_pdf_plumber,
      hs, hv, hn, hpdf, hcat, hstrip]
  · simp [process_file, read_schema, extract_text_from_pdf_plumber,
      hs, hv, hn, hpdf, hcat, hstrip]

/-- Witness for C5 at a concrete input: pages yielding a single space and the
empty string halt the flow before any HTTP request. -/
theorem whitespace_pages_halt_witness :
    envC5.pdfOpen fileOk.data = some [some (strL " "), some []] ∧
    (∃ txt, (extract_text_from_pdf_plumber envC5 fileOk.data).1 = some txt ∧
      txt.all isPyWs = true ∧ pyStrip txt = [] ∧
      (process_file envC5 sess0 (some fileOk) (strL "go")).httpAttempts = 0 ∧
      (process_file envC5 sess0 (some fileOk) (strL "go")).sentPrompt = none ∧
      Out.warning (strL "No text extracted from PDF using pdfplumber.") ∈
        (process_file envC5 sess0 (some fileOk) (strL "go")).outs ∧
      (process_file envC5 sess0 (some fileOk) (strL "go")).session = sess0) := by
  refine ⟨rfl, ?_⟩
  refine whitespace_pages_halt envC5 sess0 fileOk (strL "go") (strL "schema")
    () [some (strL " "), some []] rfl (by decide) (by decide) rfl ?_
  intro p hp
  rcases List.mem_cons.mp hp with rfl | hp2
  · exact ⟨strL " ", rfl, by decide⟩
  · rcases List.mem_cons.mp hp2 with rfl | hp3
    · exact ⟨[], rfl, by decide⟩
    · simp at hp3

/-- Claim C6: when a 200 response carries a completion that is not valid
JSON, the interpretation step displays the diagnostic message and the raw
completion byte-for-byte (`st.code(generated_text)`), no exception escapes
`process_file`, and the session is untouched. -/
theorem bad_json_completion_nonfatal {J : Type} (env : Env J)
    (sess : Session J) (f : UploadedFile) (t c txt g : List Char) (v : J)
    (pages : List (Option (List Char))) (resp : HttpResp)
    (hs : env.schemaFile = some c) (hv : env.jsonParse c = some v)
    (hn : strL ".pdf" <:+ f.name)
    (hpdf : env.pdfOpen f.data = some pages)
    (hcat : concatPages [] pages = some txt)
    (htxt : ¬ pyStrip txt = [])
    (hh : env.http = some resp) (hst : resp.status = 200)
    (hct : resp.content = some g)
    (hj : env.jsonParse g = none) :
    Out.codeBlock g ∈ (process_file env sess (some f) t).outs ∧
    Out.error (strL "The returned content is not in valid JSON format.") ∈
      (process_file env sess (some f) t).outs ∧
    Out.write (strL "Raw response:") ∈ (process_file env sess (some f) t).outs ∧
    (process_file env sess (some f) t).crash = none ∧
    (process_file env sess (some f) t).session = sess := by
  have he := process_file_200_eq env sess f t c txt g v pages resp
    hs hv hn hpdf hcat htxt hh hst hct
  refine ⟨?_, ?_, ?_, ?_, ?_⟩ <;> simp [he, interpretStep, hj]

/-- Witness for C6 at a concrete input: the completion `not json` is shown
raw, with the diagnostic, and nothing crashes. -/
theorem bad_json_completion_nonfatal_witness :
    envC6.jsonParse (strL "not json") = none ∧
    Out.codeBlock (strL "not json") ∈
      (process_file envC6 sess0 (some fileOk) (strL "go")).outs ∧
    (process_file envC6 sess0 (some fileOk) (strL "go")).crash = none ∧
    (process_file envC6 sess0 (some fileOk) (strL "go")).session = sess0 := by
  refine ⟨by decide, ?_⟩
  have h := bad_json_completion_nonfatal envC6 sess0 fileOk (strL "go")
    (strL "schema") (strL "Jane Doe") (strL "not json") ()
    [some (strL "Jane Doe")] ⟨200, strL "b", some (strL "not json")⟩
    rfl (by decide) (by decide) rfl rfl (by decide) rfl rfl rfl (by decide)
  exact ⟨h.1, h.2.2.2.1, h.2.2.2.2⟩

theorem unsupported_ne_append (pre x : List Char)
    (hnp : ¬ pre <+:
      strL "Error: Unsupported file type. Only .pdf files are supported.") :
    strL "Error: Unsupported file type. Only .pdf files are supported." ≠
      pre ++ x :=
  fun he => ne_of_no_pref hnp he.symm

/-- Claim C7: with the schema loaded and a file present, a filename that does
not end in `.pdf` gets the unsupported-file-type error and no HTTP request;
and a filename that does end in `.pdf` never gets that error — the content is
not validated independently, so such a file is rejected (if at all) only
through the PDF parsing outcome supplied by the environment. -/
theorem non_pdf_suffix_rejected {J : Type} (env : Env J) (sess : Session J)
    (f : UploadedFile) (t c : List Char) (v : J)
    (hs : env.schemaFile = some c) (hv : env.jsonParse c = some v) :
    (¬ strL ".pdf" <:+ f.name →
      Out.error (strL "Error: Unsupported file type. Only .pdf files are supported.") ∈
        (process_file env sess (some f) t).outs ∧
      (process_file env sess (some f) t).httpAttempts = 0 ∧
      (process_file env sess (some f) t).sentPrompt = none) ∧
    (strL ".pdf" <:+ f.name →
      Out.error (strL "Error: Unsupported file type. Only .pdf files are supported.") ∉
        (process_file env sess (some f) t).outs) := by
  constructor
  · intro hn
    refine ⟨?_, ?_, ?_⟩ <;> simp [process_file, read_schema, hs, hv, hn]
  · intro hn
    have hne1 : strL "Error: Unsupported file type. Only .pdf files are supported." ≠
        strL "Error extracting text from PDF: " ++ env.pdfExcText :=
      unsupported_ne_append _ _ (by decide)
    have hne2 : strL "Error: Unsupported file type. Only .pdf files are supported." ≠
        strL "Error extracting text from PDF: " ++ env.concatExcText :=
      unsupported_ne_append _ _ (by decide)
    have hne3 : strL "Error: Unsupported file type. Only .pdf files are supported." ≠
        strL "Error during API request: " ++ env.httpExcText :=
      unsupported_ne_append _ _ (by decide)
    have hne4 : strL "Error: Unsupported file type. Only .pdf files are supported." ≠
        strL "Error during API request: " ++ env.contentExcText :=
      unsupported_ne_append _ _ (by decide)
    have hne5 : strL "Error: Unsupported file type. Only .pdf files are supported." ≠
        strL "The returned content is not in valid JSON format." := by decide
    have hne6 : ∀ n, strL "Error: Unsupported file type. Only .pdf files are supported." ≠
        strL "Request failed with status code " ++ natStr n :=
      fun n => unsupported_ne_append _ _ (by decide)
    rcases hpdf : env.pdfOpen f.data with _ | pages
    · simp [process_file, read_schema, extract_text_from_pdf_plumber,
        hs, hv, hn, hpdf, hne1]
    · rcases hcat : concatPages [] pages with _ | txt
      · simp [process_file, read_schema, extract_text_from_pdf_plumber,
          hs, hv, hn, hpdf, hcat, hne2]
      · by_cases hstrip : pyStrip txt = []
        · simp [process_file, read_schema, extract_text_from_pdf_plumber,
            hs, hv, hn, hpdf, hcat, hstrip]
        · rcases hh : env.http with _ | resp
          · simp [process_file, read_schema, extract_text_from_pdf_plumber,
              hs, hv, hn, hpdf, hcat, hstrip, hh, hne3]
          · by_cases hst : resp.status = 200
            · rcases hct : resp.content with _ | g
              · simp [process_file, read_schema, extract_text_from_pdf_plumber,
                  hs, hv, hn, hpdf, hcat, hstrip, hh, hst, hct, hne4]
              · rcases hj : env.jsonParse g with _ | v2
                · simp [process_file, read_schema, extract_text_from_pdf_plumber,
                    interpretStep, hs, hv, hn, hpdf, hcat, hstrip, hh, hst, hct,
                    hj, hne5]
                · simp [process_file, read_schema, extract_text_from_pdf_plumber,
                    interpretStep, hs, hv, hn, hpdf, hcat, hstrip, hh, hst, hct, hj]
            · simp [process_file, read_schema, extract_text_from_pdf_plumber,
                hs, hv, hn, hpdf, hcat, hstrip, hh, hst, hne6 resp.status]

/-- Witness for C7 at a concrete input: `cv.txt` is rejected with the
unsupported-file-type error and no HTTP request. -/
theorem non_pdf_suffix_rejected_witness :
    ¬ strL ".pdf" <:+ strL "cv.txt" ∧
    Out.error (strL "Error: Unsupported file type. Only .pdf files are supported.") ∈
      (process_file envBase sess0 (some ⟨strL "cv.txt", [1]⟩) (strL "go")).outs ∧
    (process_file envBase sess0 (some ⟨strL "cv.txt", [1]⟩) (strL "go")).httpAttempts
      = 0 := by
  refine ⟨by decide, ?_, ?_⟩
  · exact ((non_pdf_suffix_rejected envBase sess0 ⟨strL "cv.txt", [1]⟩ (strL "go")
      (strL "schema") () rfl (by decide)).1 (by decide)).1
  · exact ((non_pdf_suffix_rejected envBase sess0 ⟨strL "cv.txt", [1]⟩ (strL "go")
      (strL "schema") () rfl (by decide)).1 (by decide)).2.1

/-- Claim C8: the interpretation step of lines 125-139 is a deterministic,
stateless function of the completion string: its display output and its
parse result do not depend on the incoming session state, and running it a
second time (on the session the first run produced) yields the identical
result. -/
theorem interpret_deterministic {J : Type} (parse : List Char → Option J)
    (g : List Char) (s₁ s₂ : Session J) :
    (interpretStep parse s₁ g).outs = (interpretStep parse s₂ g).outs ∧
    (interpretStep parse s₁ g).parsed = (interpretStep parse s₂ g).parsed ∧
    (interpretStep parse (interpretStep parse s₁ g).session g).outs =
      (interpretStep parse s₁ g).outs ∧
    (interpretStep parse (interpretStep parse s₁ g).session g).parsed =
      (interpretStep parse s₁ g).parsed := by
  cases hp : parse g <;> simp [interpretStep, hp]

/-- Claim C9: if `pdfplumber.open` succeeds but some page's
`extract_text()` returns `None`, then `extract_text_from_pdf_plumber`
returns `None` for the whole document (the `text += None` concatenation
raises and the handler catches it, discarding the other pages' text) with
the corresponding error message displayed. -/
theorem none_page_extraction_none {J : Type} (env : Env J) (data : List Nat)
    (pages : List (Option (List Char)))
    (hpdf : env.pdfOpen data = some pages) (hmem : none ∈ pages) :
    (extract_text_from_pdf_plumber env data).1 = none ∧
    (extract_text_from_pdf_plumber env data).2 =
      [.error (strL "Error extracting text from PDF: " ++ env.concatExcText)] := by
  have hc := concatPages_none pages [] hmem
  constructor <;> simp [extract_text_from_pdf_plumber, hpdf, hc]

/-- Witness for C9 at a concrete input: a document whose first page has text
and whose second page yields `None` extracts to `None`, not to the first
page's text. -/
theorem none_page_extraction_none_witness :
    envC9.pdfOpen fileOk.data = some [some (strL "page one"), none] ∧
    (extract_text_from_pdf_plumber envC9 fileOk.data).1 = none :=
  ⟨rfl,
   (none_page_extraction_none envC9 fileOk.data [some (strL "page one"), none]
     rfl (by decide)).1⟩

/-- Claim C10: `process_file` either leaves the session fields
(`extracted_info`, `show_question_input`) exactly as they were — which is
what happens on every failure outcome — or the HTTP response had status 200
with a completion that parsed as JSON, in which case the fields are set to
the parsed value and `true`. -/
theorem session_set_only_on_success {J : Type} (env : Env J)
    (sess : Session J) (up : Option UploadedFile) (t : List Char) :
    (process_file env sess up t).session = sess ∨
    (∃ resp g v, env.http = some resp ∧ resp.status = 200 ∧
      resp.content = some g ∧ env.jsonParse g = some v ∧
      (process_file env sess up t).session =
        { extracted_info := some v, show_question_input := true }) := by
  rcases hsf : env.schemaFile with _ | c
  · left; simp [process_file, read_schema, hsf]
  · rcases hpv : env.jsonParse c with _ | v
    · left; simp [process_file, read_schema, hsf, hpv]
    · rcases up with _ | f
      · left; simp [process_file, read_schema, hsf, hpv]
      · by_cases hn : strL ".pdf" <:+ f.name
        · rcases hpdf : env.pdfOpen f.data with _ | pages
          · left; simp [process_file, read_schema, extract_text_from_pdf_plumber,
              hsf, hpv, hn, hpdf]
          · rcases hcat : concatPages [] pages with _ | txt
            · left; simp [process_file, read_schema, extract_text_from_pdf_plumber,
                hsf, hpv, hn, hpdf, hcat]
            · by_cases hstrip : pyStrip txt = []
              · left; simp [process_file, read_schema, extract_text_from_pdf_plumber,
                  hsf, hpv, hn, hpdf, hcat, hstrip]
              · rcases hh : env.http with _ | resp
                · left; simp [process_file, read_schema, extract_text_from_pdf_plumber,
                    hsf, hpv, hn, hpdf, hcat, hstrip, hh]
                · by_cases hst : resp.status = 200
                  · rcases hct : resp.content with _ | g
                    · left; simp [process_file, read_schema,
                        extract_text_from_pdf_plumber, hsf, hpv, hn, hpdf, hcat,
                        hstrip, hh, hst, hct]
                    · rcases hj : env.jsonParse g with _ | v2
                      · left; simp [process_file, read_schema,
                          extract_text_from_pdf_plumber, interpretStep, hsf, hpv,
                          hn, hpdf, hcat, hstrip, hh, hst, hct, hj]
                      · right
                        refine ⟨resp, g, v2, rfl, hst, hct, hj, ?_⟩
                        simp [process_file, read_schema,
                          extract_text_from_pdf_plumber, interpretStep, hsf, hpv,
                          hn, hpdf, hcat, hstrip, hh, hst, hct, hj]
                  · left; simp [process_file, read_schema,
                      extract_text_from_pdf_plumber, hsf, hpv, hn, hpdf, hcat,
                      hstrip, hh, hst]
        · left; simp [process_file, read_schema, hsf, hpv, hn]
